import Mathlib

/-!
# Verification of the Jira reminder bot's rule and dedup engine

Shallow embedding of the rule evaluators in `services/rules.py` and the
dedup / dispatch orchestration in `services/reminder_bot.py`.

Conventions of the embedding:
* Python `dict`-based task records become a `JiraTask` structure whose fields are
  `Option String` (absence / `None` is `none`); Python truthiness tests on
  strings (`if not x`) are modelled by `pyTruthy`.
* Instants are absolute microseconds on a global timeline (an aware Python
  `datetime` denotes such an instant); dates are proleptic-Gregorian
  triples `PyDate` with an ordinal-day conversion for date arithmetic.
* Python string/timestamp primitives (`str.strip`, `str.upper`,
  `datetime.strptime` with the formats used by the source,
  `datetime.fromisoformat`) are modelled character-by-character for the
  ASCII inputs the bot handles; CPython's `_strptime` regular expressions
  for `%Y %m %d %H %M %S %f %z` are transcribed as ordered-alternative
  parsers.
* Functions that can raise and whose exceptions are observed by the caller
  (the aware/naive `datetime` subtraction `TypeError` in three evaluators,
  caught by `process_task`'s outer `try`) return `Except Unit`.
-/

/-! ## Python string primitives -/

/-- Python whitespace for `str.strip` (the ASCII whitespace characters). -/
def pySpace (c : Char) : Bool :=
  c = ' ' || c = '\t' || c = '\n' || c = '\x0d' || c = '\x0b' || c = '\x0c'

/-- `str.strip()` on a character list. -/
def stripL (l : List Char) : List Char :=
  ((l.dropWhile pySpace).reverse.dropWhile pySpace).reverse

/-- `str.strip()`. -/
def pyStrip (s : String) : String := ⟨stripL s.data⟩

/-- ASCII uppercase of one character, modelling Python `str.upper` on the
ASCII project keys / status strings the bot handles. -/
def upChar (c : Char) : Char :=
  if 97 ≤ c.toNat ∧ c.toNat ≤ 122 then Char.ofNat (c.toNat - 32) else c

/-- ASCII lowercase of one character, modelling Python `str.lower`. -/
def lowChar (c : Char) : Char :=
  if 65 ≤ c.toNat ∧ c.toNat ≤ 90 then Char.ofNat (c.toNat + 32) else c

/-- `str.upper()`. -/
def pyUpper (s : String) : String := ⟨s.data.map upChar⟩

/-- `str.lower()`. -/
def pyLower (s : String) : String := ⟨s.data.map lowChar⟩

/-- `s[:n]` on a Python string. -/
def pyTake (n : Nat) (s : String) : String := ⟨s.data.take n⟩

/-- Truthiness of an optional string (`if not x:` in Python): `None` and the
empty string are falsy. -/
def pyTruthy : Option String → Bool
  | none => false
  | some s => !s.isEmpty

/-- `x or ""` for an optional string. -/
def orEmpty (o : Option String) : String := o.getD ""

/-- `(x or "").strip().upper()`, the status/project normalisation used
throughout `rules.py`. -/
def normUpper (o : Option String) : String := pyUpper (pyStrip (orEmpty o))

/-- Does `needle` occur at the head of `hay`? -/
def leadsWith : List Char → List Char → Bool
  | [], _ => true
  | _ :: _, [] => false
  | a :: as, b :: bs => a = b && leadsWith as bs

/-- Does `needle` occur contiguously anywhere in `hay`?  Models Python's
`needle in hay` on strings. -/
def containsRun (needle : List Char) : List Char → Bool
  | [] => needle.isEmpty
  | c :: cs => leadsWith needle (c :: cs) || containsRun needle cs

/-- Python `needle in hay` for strings. -/
def pyContains (hay needle : String) : Bool := containsRun needle.data hay.data

/-- Python `str.replace("Z", "+00:00")` (replaces every occurrence). -/
def replaceZ (s : String) : String :=
  ⟨s.data.foldr (fun c acc => if c = 'Z' then '+' :: '0' :: '0' :: ':' :: '0' :: '0' :: acc else c :: acc) []⟩

/-! ## Dates and instants -/

/-- A Gregorian calendar date as Python's `datetime.date` holds it. -/
structure PyDate where
  y : Nat
  m : Nat
  d : Nat
deriving DecidableEq, Repr

/-- Gregorian leap-year test. -/
def isLeap (y : Nat) : Bool := (y % 4 = 0 && y % 100 ≠ 0) || y % 400 = 0

/-- Number of days in a month. -/
def daysInMonth (y m : Nat) : Nat :=
  if m = 1 then 31 else if m = 2 then (if isLeap y then 29 else 28)
  else if m = 3 then 31 else if m = 4 then 30 else if m = 5 then 31
  else if m = 6 then 30 else if m = 7 then 31 else if m = 8 then 31
  else if m = 9 then 30 else if m = 10 then 31 else if m = 11 then 30
  else 31

/-- The validity check `datetime.date(y, m, d)` performs (`MINYEAR = 1`,
`MAXYEAR = 9999`). -/
def validDate (y m d : Nat) : Bool :=
  1 ≤ y && y ≤ 9999 && 1 ≤ m && m ≤ 12 && 1 ≤ d && d ≤ daysInMonth y m

/-- Days contributed by the months before month `m` of year `y`. -/
def daysBeforeMonth (y m : Nat) : Nat :=
  (List.range (m - 1)).foldl (fun acc i => acc + daysInMonth y (i + 1)) 0

/-- Proleptic-Gregorian ordinal of a date (0001-01-01 is day 1), as
`datetime.date.toordinal`; date subtraction in the source is the difference
of these ordinals. -/
def toOrd (dt : PyDate) : Nat :=
  365 * (dt.y - 1) + ((dt.y - 1) / 4 - (dt.y - 1) / 100) + (dt.y - 1) / 400
    + daysBeforeMonth dt.y dt.m + dt.d

/-- Microseconds per day / the Vietnam offset (+07:00) in microseconds. -/
def usPerDay : Int := 86400000000

/-- UTC+07:00 (Asia/Ho_Chi_Minh) in microseconds. -/
def vnOffUs : Int := 25200000000

/-- Calendar date (as an ordinal) of an absolute instant in the Vietnam
timezone: `datetime.now(VN).date()` when `now` is the instant. -/
def vnDateOrd (t : Int) : Int := (t + vnOffUs).fdiv usPerDay

/-- A parsed Python `datetime`: civil components plus an optional UTC offset
in microseconds (`none` = naive). -/
structure PyDT where
  date : PyDate
  hh : Nat
  mi : Nat
  ss : Nat
  us : Nat
  offUs : Option Int
deriving DecidableEq, Repr

/-- Civil microseconds of a `PyDT` (ignoring the offset). -/
def civilUs (t : PyDT) : Int :=
  ((toOrd t.date) * 86400 + t.hh * 3600 + t.mi * 60 + t.ss : Nat) * 1000000 + t.us

/-- Absolute instant of a `PyDT`, defaulting a naive value to the given
offset (the source applies `replace(tzinfo=VN_TIMEZONE)` to naive values
where it defaults them). -/
def absUs (t : PyDT) (defaultOff : Int) : Int := civilUs t - t.offUs.getD defaultOff

/-! ## CPython `_strptime` component parsers (ordered regex alternatives) -/

/-- Is `c` an ASCII digit? -/
def isDigitC (c : Char) : Bool := 48 ≤ c.toNat && c.toNat ≤ 57

/-- Numeric value of an ASCII digit. -/
def dval (c : Char) : Nat := c.toNat - 48

/-- Exactly `n` digits, most significant first. -/
def grabDigitsAux : Nat → Nat → List Char → Option (Nat × List Char)
  | 0, acc, l => some (acc, l)
  | _ + 1, _, [] => none
  | n + 1, acc, c :: cs =>
    if isDigitC c then grabDigitsAux n (acc * 10 + dval c) cs else none

/-- Exactly `n` digits. -/
def grabDigits (n : Nat) (l : List Char) : Option (Nat × List Char) :=
  grabDigitsAux n 0 l

/-- Expect one literal character. -/
def expectChar (c : Char) : List Char → Option (List Char)
  | [] => none
  | x :: xs => if x = c then some xs else none

/-- `%m`: CPython regex `1[0-2]|0[1-9]|[1-9]`, alternatives in order. -/
def pMonth : List Char → Option (Nat × List Char)
  | [] => none
  | c :: rest =>
    if c = '1' then
      match rest with
      | b :: rest2 => if '0' ≤ b && b ≤ '2' then some (10 + dval b, rest2) else some (1, rest)
      | [] => some (1, [])
    else if c = '0' then
      match rest with
      | b :: rest2 => if '1' ≤ b && b ≤ '9' then some (dval b, rest2) else none
      | [] => none
    else if '2' ≤ c && c ≤ '9' then some (dval c, rest)
    else none

/-- `%d`: CPython regex `3[01]|[12]\d|0[1-9]|[1-9]`, alternatives in order. -/
def pDay : List Char → Option (Nat × List Char)
  | [] => none
  | c :: rest =>
    if c = '3' then
      match rest with
      | b :: rest2 => if b = '0' || b = '1' then some (30 + dval b, rest2) else some (3, rest)
      | [] => some (3, [])
    else if c = '1' || c = '2' then
      match rest with
      | b :: rest2 => if isDigitC b then some (dval c * 10 + dval b, rest2) else some (dval c, rest)
      | [] => some (dval c, [])
    else if c = '0' then
      match rest with
      | b :: rest2 => if '1' ≤ b && b ≤ '9' then some (dval b, rest2) else none
      | [] => none
    else if '4' ≤ c && c ≤ '9' then some (dval c, rest)
    else none

/-- `%H`: CPython regex `2[0-3]|[0-1]\d|\d`, alternatives in order. -/
def pHour : List Char → Option (Nat × List Char)
  | [] => none
  | c :: rest =>
    if c = '2' then
      match rest with
      | b :: rest2 => if '0' ≤ b && b ≤ '3' then some (20 + dval b, rest2) else some (2, rest)
      | [] => some (2, [])
    else if c = '0' || c = '1' then
      match rest with
      | b :: rest2 => if isDigitC b then some (dval c * 10 + dval b, rest2) else some (dval c, rest)
      | [] => some (dval c, [])
    else if isDigitC c then some (dval c, rest)
    else none

/-- `%M` and `%S`: CPython regex `[0-5]\d|\d`, alternatives in order. -/
def pMinSec : List Char → Option (Nat × List Char)
  | [] => none
  | c :: rest =>
    if '0' ≤ c && c ≤ '5' then
      match rest with
      | b :: rest2 => if isDigitC b then some (dval c * 10 + dval b, rest2) else some (dval c, rest)
      | [] => some (dval c, [])
    else if isDigitC c then some (dval c, rest)
    else none

/-- `%f`: `\d{1,6}` greedy, scaled to microseconds
(`int(f + "0" * (6 - len(f)))`). -/
def pFrac (l : List Char) : Option (Nat × List Char) :=
  let ds := (l.takeWhile isDigitC).take 6
  if ds.isEmpty then none
  else some (ds.foldl (fun a c => a * 10 + dval c) 0 * 10 ^ (6 - ds.length), l.drop ds.length)

/-- Exactly two characters `[0-5]\d`. -/
def pTwo05 : List Char → Option (Nat × List Char)
  | a :: b :: rest =>
    if ('0' ≤ a && a ≤ '5') && isDigitC b then some (dval a * 10 + dval b, rest) else none
  | _ => none

/-- Optional `(\.\d{1,6})?` after the offset seconds; the fractional value
feeds the offset. -/
def pOffFracOpt (l : List Char) : Nat × List Char :=
  match l with
  | '.' :: t =>
    match pFrac t with
    | some (v, r) => (v, r)
    | none => (0, l)
  | _ => (0, l)

/-- Optional `(:?[0-5]\d(\.\d{1,6})?)?` seconds group of `%z`. -/
def pOffSecOpt (l : List Char) : Nat × List Char :=
  match l with
  | ':' :: t =>
    match pTwo05 t with
    | some (ss, r) => let (f, r2) := pOffFracOpt r; (ss * 1000000 + f, r2)
    | none => (0, l)
  | t =>
    match pTwo05 t with
    | some (ss, r) => let (f, r2) := pOffFracOpt r; (ss * 1000000 + f, r2)
    | none => (0, l)

/-- `%z`: CPython regex `[+-]\d\d:?[0-5]\d(:?[0-5]\d(\.\d{1,6})?)?|Z`,
yielding a UTC offset in microseconds; `datetime.timezone` rejects
offsets of 24 hours or more. -/
def pTzOffset : List Char → Option (Int × List Char)
  | [] => none
  | c :: rest =>
    if c = 'Z' then some (0, rest)
    else if c = '+' || c = '-' then
      match grabDigits 2 rest with
      | none => none
      | some (hh, r1) =>
        let r2 := match r1 with | ':' :: t => t | t => t
        match pTwo05 r2 with
        | none => none
        | some (mm, r3) =>
          let (secUs, r4) := pOffSecOpt r3
          let total : Int := (hh * 3600 + mm * 60 : Nat) * 1000000 + secUs
          if total < 86400000000 then
            some (if c = '-' then -total else total, r4)
          else none
    else none

/-! ## The strptime formats used by the source -/

/-- `strptime(s, "%Y-%m-%dT%H:%M:%S%z")` (aware). -/
def strptime_dtz (s : String) : Option PyDT :=
  match grabDigits 4 s.data with
  | none => none
  | some (y, r1) =>
  match expectChar '-' r1 with
  | none => none
  | some r2 =>
  match pMonth r2 with
  | none => none
  | some (m, r3) =>
  match expectChar '-' r3 with
  | none => none
  | some r4 =>
  match pDay r4 with
  | none => none
  | some (d, r5) =>
  match expectChar 'T' r5 with
  | none => none
  | some r6 =>
  match pHour r6 with
  | none => none
  | some (hh, r7) =>
  match expectChar ':' r7 with
  | none => none
  | some r8 =>
  match pMinSec r8 with
  | none => none
  | some (mi, r9) =>
  match expectChar ':' r9 with
  | none => none
  | some r10 =>
  match pMinSec r10 with
  | none => none
  | some (ss, r11) =>
  match pTzOffset r11 with
  | none => none
  | some (off, r12) =>
    if r12.isEmpty && validDate y m d then
      some ⟨⟨y, m, d⟩, hh, mi, ss, 0, some off⟩
    else none

/-- `strptime(s, "%Y-%m-%dT%H:%M:%S")` (naive). -/
def strptime_dt (s : String) : Option PyDT :=
  match grabDigits 4 s.data with
  | none => none
  | some (y, r1) =>
  match expectChar '-' r1 with
  | none => none
  | some r2 =>
  match pMonth r2 with
  | none => none
  | some (m, r3) =>
  match expectChar '-' r3 with
  | none => none
  | some r4 =>
  match pDay r4 with
  | none => none
  | some (d, r5) =>
  match expectChar 'T' r5 with
  | none => none
  | some r6 =>
  match pHour r6 with
  | none => none
  | some (hh, r7) =>
  match expectChar ':' r7 with
  | none => none
  | some r8 =>
  match pMinSec r8 with
  | none => none
  | some (mi, r9) =>
  match expectChar ':' r9 with
  | none => none
  | some r10 =>
  match pMinSec r10 with
  | none => none
  | some (ss, r11) =>
    if r11.isEmpty && validDate y m d then
      some ⟨⟨y, m, d⟩, hh, mi, ss, 0, none⟩
    else none

/-- `strptime(s, "%Y-%m-%dT%H:%M:%S.%f%z")` (aware, fractional seconds). -/
def strptime_dtfz (s : String) : Option PyDT :=
  match grabDigits 4 s.data with
  | none => none
  | some (y, r1) =>
  match expectChar '-' r1 with
  | none => none
  | some r2 =>
  match pMonth r2 with
  | none => none
  | some (m, r3) =>
  match expectChar '-' r3 with
  | none => none
  | some r4 =>
  match pDay r4 with
  | none => none
  | some (d, r5) =>
  match expectChar 'T' r5 with
  | none => none
  | some r6 =>
  match pHour r6 with
  | none => none
  | some (hh, r7) =>
  match expectChar ':' r7 with
  | none => none
  | some r8 =>
  match pMinSec r8 with
  | none => none
  | some (mi, r9) =>
  match expectChar ':' r9 with
  | none => none
  | some r10 =>
  match pMinSec r10 with
  | none => none
  | some (ss, r11) =>
  match expectChar '.' r11 with
  | none => none
  | some r12 =>
  match pFrac r12 with
  | none => none
  | some (us, r13) =>
  match pTzOffset r13 with
  | none => none
  | some (off, r14) =>
    if r14.isEmpty && validDate y m d then
      some ⟨⟨y, m, d⟩, hh, mi, ss, us, some off⟩
    else none

/-- `strptime(s, "%Y-%m-%d").date()`, the primary due-date parse
(`s[:10]` is taken by the caller). -/
def strptime_Ymd (s : String) : Option PyDate :=
  match grabDigits 4 s.data with
  | none => none
  | some (y, r1) =>
  match expectChar '-' r1 with
  | none => none
  | some r2 =>
  match pMonth r2 with
  | none => none
  | some (m, r3) =>
  match expectChar '-' r3 with
  | none => none
  | some r4 =>
  match pDay r4 with
  | none => none
  | some (d, r5) =>
    if r5.isEmpty && validDate y m d then some ⟨y, m, d⟩ else none

/-- `strptime(s, "%Y%m%d")` applied to exactly eight digit characters (the
capture of `re.search(r'(\d{8})', name)`).  On an 8-digit input the `%m%d`
regex alternatives can only split 2+2, so the parse succeeds exactly when
digits 5-6 form a month `01..12`, digits 7-8 form a day `01..31`, and the
resulting triple is a real calendar date. -/
def strptime_Ymd8 (ds : List Char) : Option PyDate :=
  match grabDigits 4 ds with
  | none => none
  | some (y, r1) =>
  match grabDigits 2 r1 with
  | none => none
  | some (m, r2) =>
  match grabDigits 2 r2 with
  | none => none
  | some (d, r3) =>
    if r3.isEmpty && 1 ≤ m && 1 ≤ d && validDate y m d then some ⟨y, m, d⟩ else none

/-! ## `datetime.fromisoformat` (CPython 3.10 grammar) -/

/-- Time part `HH[:MM[:SS[.fff[fff]]]]` of `fromisoformat`, two-digit
components, fraction of exactly 3 or 6 digits. -/
def isoTime : List Char → Option (Nat × Nat × Nat × Nat × List Char)
  | l =>
    match grabDigits 2 l with
    | none => none
    | some (hh, r1) =>
      match r1 with
      | ':' :: t =>
        match grabDigits 2 t with
        | none => none
        | some (mi, r2) =>
          match r2 with
          | ':' :: t2 =>
            match grabDigits 2 t2 with
            | none => none
            | some (ss, r3) =>
              match r3 with
              | '.' :: t3 =>
                let ds := t3.takeWhile isDigitC
                if ds.length = 3 then
                  some (hh, mi, ss, (ds.foldl (fun a c => a * 10 + dval c) 0) * 1000, t3.drop 3)
                else if ds.length = 6 then
                  some (hh, mi, ss, ds.foldl (fun a c => a * 10 + dval c) 0, t3.drop 6)
                else none
              | r => some (hh, mi, ss, 0, r)
          | r => some (hh, mi, 0, 0, r)
      | r => some (hh, 0, 0, 0, r)

/-- Timezone suffix `±HH:MM[:SS[.ffffff]]` of `fromisoformat` (3.10 accepts
lengths 6, 9 or 16 after the sign position), in microseconds. -/
def isoTz : List Char → Option (Int × List Char)
  | [] => none
  | c :: rest =>
    if c = '+' || c = '-' then
      match grabDigits 2 rest with
      | none => none
      | some (hh, r1) =>
      match expectChar ':' r1 with
      | none => none
      | some r2 =>
      match grabDigits 2 r2 with
      | none => none
      | some (mi, r3) =>
        match r3 with
        | ':' :: t =>
          match grabDigits 2 t with
          | none => none
          | some (ss, r4) =>
            match r4 with
            | '.' :: t2 =>
              let ds := t2.takeWhile isDigitC
              if ds.length = 6 then
                let us := ds.foldl (fun a c => a * 10 + dval c) 0
                let total : Int := (hh * 3600 + mi * 60 + ss : Nat) * 1000000 + us
                some (if c = '-' then -total else total, t2.drop 6)
              else none
            | r =>
              let total : Int := (hh * 3600 + mi * 60 + ss : Nat) * 1000000
              some (if c = '-' then -total else total, r)
        | r =>
          let total : Int := (hh * 3600 + mi * 60 : Nat) * 1000000
          some (if c = '-' then -total else total, r)
    else none

/-- `datetime.fromisoformat` (CPython ≤ 3.10 grammar): strict ten-character
date `YYYY-MM-DD`, then optionally one separator character (any character)
and a time, then optionally a timezone.  Component ranges are validated as
the `datetime` constructor does. -/
def fromiso_dt (s : String) : Option PyDT :=
  let l := s.data
  match grabDigits 4 (l.take 10) with
  | none => none
  | some (y, r1) =>
  match expectChar '-' r1 with
  | none => none
  | some r2 =>
  match grabDigits 2 r2 with
  | none => none
  | some (m, r3) =>
  match expectChar '-' r3 with
  | none => none
  | some r4 =>
  match grabDigits 2 r4 with
  | none => none
  | some (d, r5) =>
    if !r5.isEmpty || !validDate y m d then none
    else if l.length = 10 then some ⟨⟨y, m, d⟩, 0, 0, 0, 0, none⟩
    else if l.length = 11 then none
    else
      match isoTime (l.drop 11) with
      | none => none
      | some (hh, mi, ss, us, r6) =>
        if hh ≥ 24 || mi ≥ 60 || ss ≥ 60 then none
        else
          match r6 with
          | [] => some (⟨⟨y, m, d⟩, hh, mi, ss, us, none⟩ : PyDT)
          | r7 =>
            match isoTz r7 with
            | some (off, []) =>
              if off.natAbs < 86400000000 then some ⟨⟨y, m, d⟩, hh, mi, ss, us, some off⟩
              else none
            | _ => none

/-! ## Fix-version name scanning (`_parse_date_from_fixversion_name`) -/

/-- Leftmost run of eight consecutive digit characters
(`re.search(r'(\d{8})', name)`). -/
def scan8 : List Char → Option (List Char)
  | [] => none
  | c :: rest =>
    let first8 := (c :: rest).take 8
    if first8.length = 8 && first8.all isDigitC then some first8
    else scan8 rest

/-- `_parse_date_from_fixversion_name` from `rules.py`: strip the name,
find the first 8-digit token, parse it as `%Y%m%d`.  Returns the date
(only the `.date()` of the result is ever consumed). -/
def parse_date_from_fixversion_name (name : String) : Option PyDate :=
  match scan8 (stripL name.data) with
  | none => none
  | some ds => strptime_Ymd8 ds

/-- Left-pad a numeral with zeros to the given width. -/
def padNum (w : Nat) (n : Nat) : String :=
  let s := toString n
  ⟨List.replicate (w - s.length) '0' ++ s.data⟩

/-- `date.isoformat()`. -/
def isoDateStr (d : PyDate) : String :=
  padNum 4 d.y ++ "-" ++ padNum 2 d.m ++ "-" ++ padNum 2 d.d

/-! ## `services/rules.py`: configuration tables and gates -/

/-- Rule identifier constants from `rules.py`. -/
def MISSING_LOGTIME : String := "missing_logtime"

/-- Rule identifier. -/
def MISSING_DESCRIPTION : String := "missing_description"

/-- Rule identifier. -/
def PRE_VERSION_REMINDER : String := "pre_version_reminder"

/-- Rule identifier. -/
def POST_VERSION_ALERT : String := "post_version_alert"

/-- Rule identifier. -/
def ASSIGNEE_CHANGED : String := "assignee_changed"

/-- Rule identifier. -/
def DUE_DATE_OVERDUE : String := "due_date_overdue"

/-- Rule identifier. -/
def RECENTLY_CREATED : String := "recently_created"

/-- The hardcoded test-recipient allow-list `TEST_EMAILS`. -/
def TEST_EMAILS : List String :=
  ["hangnt60@fpt.com", "nhutlm1@fpt.com", "haovtm2@fpt.com", "tuttc8@fpt.com",
   "phucnvh6@fpt.com", "quyennt94@fpt.com", "loinp5@fpt.com", "kieuntd@fpt.com",
   "minhnlv2@fpt.com"]

/-- The per-rule exclusion dictionary `RULE_EXCLUDED_PROJECTS`, as the lookup
`RULE_EXCLUDED_PROJECTS.get(rule_code, [])`: three rules carry the single
literal entry `"IPTPE,TADS"`, every other key maps to `[]`. -/
def RULE_EXCLUDED_PROJECTS (rule_code : String) : List String :=
  if rule_code = MISSING_LOGTIME then ["IPTPE,TADS"]
  else if rule_code = PRE_VERSION_REMINDER then ["IPTPE,TADS"]
  else if rule_code = POST_VERSION_ALERT then ["IPTPE,TADS"]
  else []

/-- The per-rule allow-list dictionary `RULE_INCLUDED_PROJECTS`, as the lookup
`RULE_INCLUDED_PROJECTS.get(rule_code, [])`: only `due_date_overdue` has a
non-empty list, the single literal entry `"IPTPE,TADS"`. -/
def RULE_INCLUDED_PROJECTS (rule_code : String) : List String :=
  if rule_code = DUE_DATE_OVERDUE then ["IPTPE,TADS"] else []

/-- `is_project_excluded` from `rules.py`. -/
def is_project_excluded (project : Option String) (rule_code : String) : Bool :=
  if !pyTruthy project then false
  else
    let excluded := RULE_EXCLUDED_PROJECTS rule_code
    if excluded.isEmpty then false
    else (excluded.map pyUpper).contains (pyUpper (pyStrip (project.getD "")))

/-- `is_project_allowed` from `rules.py`. -/
def is_project_allowed (project : Option String) (rule_code : String) : Bool :=
  let included := RULE_INCLUDED_PROJECTS rule_code
  if included.isEmpty then true
  else if !pyTruthy project then false
  else (included.map pyUpper).contains (pyUpper (pyStrip (project.getD "")))

/-- `is_test_email` from `rules.py`, parameterised by the allow-list so the
empty-list ("allow all") branch is expressible. -/
def is_test_email_with (emails : List String) (email : Option String) : Bool :=
  if !pyTruthy email then false
  else if emails.isEmpty then true
  else
    let el := pyLower (pyStrip (email.getD ""))
    emails.any (fun t => pyLower t = el)

/-- `is_test_email` against the hardcoded `TEST_EMAILS`. -/
def is_test_email (email : Option String) : Bool := is_test_email_with TEST_EMAILS email

/-! ## The canonical task record -/

/-- One normalized Jira task as the evaluators read it (`task.get(...)`
on a dict): absent keys are `none`.  `key` is a plain string because the
orchestrator subscripts `task["key"]` unconditionally.  The four due-date
aliases and three created-at aliases mirror the key-priority lookups in
`evaluate_due_date_overdue` / `evaluate_created_recently`. -/
structure JiraTask where
  key : String
  summary : Option String := none
  project : Option String := none
  status : Option String := none
  has_worklog : Bool := false
  last_status_changed_at : Option String := none
  description : Option String := none
  fixVersions : List (Option String) := []
  fixVersion_dates : List (String × String) := []
  assignee_email : Option String := none
  reporter_email : Option String := none
  last_assignee_changed_at : Option String := none
  duedate : Option String := none
  dueDate : Option String := none
  due_date : Option String := none
  due : Option String := none
  created : Option String := none
  created_at : Option String := none
  createdAt : Option String := none
  task_url : Option String := none
deriving DecidableEq, Repr

/-! ## Rule evaluators -/

/-- `evaluate_missing_logtime` from `rules.py`.  `now` is the current
instant in absolute microseconds.  A `last_status_changed_at` that parses
only with the timezone-less format yields a naive datetime, and the
subsequent aware-minus-naive subtraction raises `TypeError`
(`Except.error`), observed by `process_task`'s outer `try`. -/
def evaluate_missing_logtime (task : JiraTask) (ci_testing_wait_minutes : Int) (now : Int) :
    Except Unit (Option String) :=
  if !is_project_allowed task.project MISSING_LOGTIME then .ok none
  else if is_project_excluded task.project MISSING_LOGTIME then .ok none
  else
    let status_norm := normUpper task.status
    if !pyContains status_norm "READY CI TESTING" then .ok none
    else if task.has_worklog then .ok none
    else if !pyTruthy task.last_status_changed_at then .ok (some MISSING_LOGTIME)
    else
      let s := task.last_status_changed_at.getD ""
      match strptime_dtz s with
      | some t =>
        if now - absUs t 0 ≥ ci_testing_wait_minutes * 60000000 then .ok (some MISSING_LOGTIME)
        else .ok none
      | none =>
        match strptime_dt s with
        | some _ => .error ()
        | none => .ok (some MISSING_LOGTIME)

/-- `evaluate_missing_description` from `rules.py`. -/
def evaluate_missing_description (task : JiraTask) : Option String :=
  if !is_project_allowed task.project MISSING_DESCRIPTION then none
  else if is_project_excluded task.project MISSING_DESCRIPTION then none
  else
    match task.description with
    | none => some MISSING_DESCRIPTION
    | some d => if (pyStrip d).isEmpty then some MISSING_DESCRIPTION else none

/-- Payload of a `pre_version_reminder` hit: the dict
`{code, fv_name, days[, status]}` (the `status` key is present only for the
first trigger condition). -/
structure PreHit where
  fv_name : String
  days : Int
  status : Option String
deriving DecidableEq, Repr

/-- The UAT-phase statuses `deploy_uat_statuses`. -/
def deploy_uat_statuses : List String := ["DEPLOYING", "UAT", "UAT TESTING", "READY UAT"]

/-- Per-fix-version body of the loop in `evaluate_pre_version_reminder`:
resolve a release date from the name token (fallback: the
`fixVersion_dates` map via `fromisoformat`), compute `days_until` on dates,
then apply the two trigger conditions in source order.  The else-branch of
the first condition only logs, so control falls through to the second. -/
def preVersionLoop (fvDates : List (String × String)) (statusNorm : String)
    (preDays todayOrd : Int) : List (Option String) → Option PreHit
  | [] => none
  | fv :: rest =>
    if !pyTruthy fv then preVersionLoop fvDates statusNorm preDays todayOrd rest
    else
      let name := fv.getD ""
      let releaseDate : Option PyDate :=
        match parse_date_from_fixversion_name name with
        | some d => some d
        | none =>
          match (fvDates.find? (fun p => p.1 = name)).map Prod.snd with
          | some ds =>
            if ds.isEmpty then none
            else (fromiso_dt ds).map (·.date)
          | none => none
      match releaseDate with
      | none => preVersionLoop fvDates statusNorm preDays todayOrd rest
      | some rd =>
        let days : Int := (toOrd rd : Int) - todayOrd
        if 0 ≤ days && days ≤ 2 && !deploy_uat_statuses.contains statusNorm then
          some ⟨name, days, some statusNorm⟩
        else if 0 < days && days ≤ preDays then
          some ⟨name, days, none⟩
        else preVersionLoop fvDates statusNorm preDays todayOrd rest

/-- `evaluate_pre_version_reminder` from `rules.py`. -/
def evaluate_pre_version_reminder (task : JiraTask) (pre_version_days : Int) (now : Int) :
    Option PreHit :=
  if !is_project_allowed task.project PRE_VERSION_REMINDER then none
  else if is_project_excluded task.project PRE_VERSION_REMINDER then none
  else if task.fixVersions.isEmpty then none
  else
    preVersionLoop task.fixVersion_dates (normUpper task.status) pre_version_days
      (vnDateOrd now) task.fixVersions

/-- Payload of a `post_version_alert` hit: `{code, fv_name, release_date}`. -/
structure PostHit where
  fv_name : String
  release_date : String
deriving DecidableEq, Repr

/-- Per-fix-version loop of `evaluate_post_version_alert`. -/
def postVersionLoop (fvDates : List (String × String)) (todayOrd : Int) :
    List (Option String) → Option PostHit
  | [] => none
  | fv :: rest =>
    if !pyTruthy fv then postVersionLoop fvDates todayOrd rest
    else
      let name := fv.getD ""
      let releaseDate : Option PyDate :=
        match parse_date_from_fixversion_name name with
        | some d => some d
        | none =>
          match (fvDates.find? (fun p => p.1 = name)).map Prod.snd with
          | some ds =>
            if ds.isEmpty then none
            else (fromiso_dt ds).map (·.date)
          | none => none
      match releaseDate with
      | none => postVersionLoop fvDates todayOrd rest
      | some rd =>
        if todayOrd > (toOrd rd : Int) then some ⟨name, isoDateStr rd⟩
        else postVersionLoop fvDates todayOrd rest

/-- `evaluate_post_version_alert` from `rules.py`. -/
def evaluate_post_version_alert (task : JiraTask) (now : Int) : Option PostHit :=
  if !is_project_allowed task.project POST_VERSION_ALERT then none
  else if is_project_excluded task.project POST_VERSION_ALERT then none
  else
    let status_norm := normUpper task.status
    if task.fixVersions.isEmpty then none
    else if status_norm = "COMPLETE" then none
    else postVersionLoop task.fixVersion_dates (vnDateOrd now) task.fixVersions

/-- Payload of an `assignee_changed` hit. -/
structure AssigneeHit where
  assignee_email : String
  changed_at : String
deriving DecidableEq, Repr

/-- The ordered `strptime` attempts of `evaluate_assignee_changed`:
`%Y-%m-%dT%H:%M:%S.%f%z`, then `%Y-%m-%dT%H:%M:%S%z`, then the naive
`%Y-%m-%dT%H:%M:%S`. -/
def parseAssigneeTs (s : String) : Option PyDT :=
  match strptime_dtfz s with
  | some t => some t
  | none =>
    match strptime_dtz s with
    | some t => some t
    | none => strptime_dt s

/-- `evaluate_assignee_changed` from `rules.py`.  A timestamp that parses
only naively leads to an aware-minus-naive subtraction, raising
`TypeError` (`Except.error`). -/
def evaluate_assignee_changed (task : JiraTask) (assignee_change_wait_minutes : Int)
    (now : Int) : Except Unit (Option AssigneeHit) :=
  if !is_project_allowed task.project ASSIGNEE_CHANGED then .ok none
  else if is_project_excluded task.project ASSIGNEE_CHANGED then .ok none
  else if !pyTruthy task.assignee_email then .ok none
  else if !pyTruthy task.last_assignee_changed_at then .ok none
  else
    let s := task.last_assignee_changed_at.getD ""
    match parseAssigneeTs s with
    | none => .ok none
    | some t =>
      match t.offUs with
      | none => .error ()
      | some _ =>
        let diff := now - absUs t 0
        if 0 ≤ diff && diff ≤ assignee_change_wait_minutes * 60000000 then
          .ok (some ⟨task.assignee_email.getD "", s⟩)
        else .ok none

/-- Payload of a `due_date_overdue` hit: `{code, due_date, days_overdue}`. -/
structure DueHit where
  due_date : String
  days_overdue : Int
deriving DecidableEq, Repr

/-- The due-date lookup of `evaluate_due_date_overdue`: first of the keys
`duedate`, `dueDate`, `due_date`, `due` whose value is present and not
`None` (an empty string is taken, unlike the truthiness tests elsewhere). -/
def dueLookup (task : JiraTask) : Option String :=
  match task.duedate with
  | some v => some v
  | none =>
    match task.dueDate with
    | some v => some v
    | none =>
      match task.due_date with
      | some v => some v
      | none => task.due

/-- Due-string normalisation of `evaluate_due_date_overdue`: strip, then
`strptime(s[:10], "%Y-%m-%d")`, falling back to
`datetime.fromisoformat(s).date()`. -/
def parse_due (s0 : String) : Option PyDate :=
  let s := pyStrip s0
  match strptime_Ymd (pyTake 10 s) with
  | some d => some d
  | none => (fromiso_dt s).map (·.date)

/-- `evaluate_due_date_overdue` from `rules.py` (string-typed due values;
the datetime/date-object branches of the source are for inputs that never
occur in the JSON-shaped task records). -/
def evaluate_due_date_overdue (task : JiraTask) (now : Int) : Option DueHit :=
  if !is_project_allowed task.project DUE_DATE_OVERDUE then none
  else if is_project_excluded task.project DUE_DATE_OVERDUE then none
  else
    match dueLookup task with
    | none => none
    | some dueRaw =>
      match parse_due dueRaw with
      | none => none
      | some dueDateOnly =>
        let today := vnDateOrd now
        if today > (toOrd dueDateOnly : Int) then
          some ⟨isoDateStr dueDateOnly, today - (toOrd dueDateOnly : Int)⟩
        else none

/-- Payload of a `recently_created` hit. -/
structure CreatedHit where
  created_at : String
deriving DecidableEq, Repr

/-- The created-at lookup of `evaluate_created_recently`: first truthy value
of the keys `created`, `created_at`, `createdAt`. -/
def createdLookup (task : JiraTask) : Option String :=
  if pyTruthy task.created then task.created
  else if pyTruthy task.created_at then task.created_at
  else if pyTruthy task.createdAt then task.createdAt
  else none

/-- The ordered parse attempts of `evaluate_created_recently`:
`%Y-%m-%dT%H:%M:%S.%f%z`, `%Y-%m-%dT%H:%M:%S%z`, naive
`%Y-%m-%dT%H:%M:%S`, then `datetime.fromisoformat`. -/
def parseCreatedTs (s : String) : Option PyDT :=
  match strptime_dtfz s with
  | some t => some t
  | none =>
    match strptime_dtz s with
    | some t => some t
    | none =>
      match strptime_dt s with
      | some t => some t
      | none => fromiso_dt s

/-- `evaluate_created_recently` from `rules.py`.  A naive parsed timestamp
leads to an aware-minus-naive subtraction, raising `TypeError`. -/
def evaluate_created_recently (task : JiraTask) (created_wait_minutes : Int)
    (now : Int) : Except Unit (Option CreatedHit) :=
  if !is_project_allowed task.project RECENTLY_CREATED then .ok none
  else if is_project_excluded task.project RECENTLY_CREATED then .ok none
  else
    match createdLookup task with
    | none => .ok none
    | some s =>
      match parseCreatedTs s with
      | none => .ok none
      | some t =>
        match t.offUs with
        | none => .error ()
        | some _ =>
          let diff := now - absUs t 0
          if 0 ≤ diff && diff ≤ created_wait_minutes * 60000000 then
            .ok (some ⟨s⟩)
          else .ok none

/-! ## `services/reminder_bot.py`: history records and the dedup queries -/

/-- One in-memory history row as `_load_history` produces it: the DB
columns plus the fields of the JSON message dict (`task_key`, `rule_type`,
`to` — named `toAddr` here since `to` is reserved — `sent_at`,
`status`, ...). -/
structure HistRow where
  task_key : Option String := none
  rule_type : Option String := none
  toAddr : Option String := none
  sent_at : Option String := none
  status : Option String := none
deriving DecidableEq, Repr

/-- One loop iteration of `_already_sent`: does this row match the
`(task_key, rule_type, to)` triple and carry a `sent_at` that parses
(after `replace("Z", "+00:00")`, naive defaulting to the Vietnam zone)
to an instant less than `resend_after_hours` hours before `now`?
A row whose `sent_at` is missing or unparseable raises inside the `try`
and is skipped (`continue`). -/
def rowBlocks (now : Int) (taskKey ruleCode toVal : String) (resendHours : Int)
    (r : HistRow) : Bool :=
  if r.task_key == some taskKey && r.rule_type == some ruleCode && r.toAddr == some toVal then
    match r.sent_at with
    | none => false
    | some s =>
      match fromiso_dt (replaceZ s) with
      | none => false
      | some t => now - absUs t vnOffUs < resendHours * 3600000000
  else false

/-- `_already_sent` from `reminder_bot.py`: true iff some matching history
row was sent within the window. -/
def already_sent (rows : List HistRow) (taskKey ruleCode toVal : String)
    (resendHours now : Int) : Bool :=
  rows.any (rowBlocks now taskKey ruleCode toVal resendHours)

/-- One DB log row as `_already_logged_today_by_level` reads it;
`created_at` is the row's instant in absolute microseconds (naive DB values
are interpreted as Vietnam wall time by the source before comparing). -/
structure DbLog where
  source : String := "reminder_bot"
  level : Option String := none
  email : Option String := none
  task_key : Option String := none
  rule_type : Option String := none
  created_at : Option Int := none
deriving Repr

/-- `LogRepository.list_by_email_and_task`: filter by source and by each of
email / task_key / rule_type when the argument is truthy (ordering and the
row limit are not modelled). -/
def list_by_email_and_task (db : List DbLog) (source : String)
    (email task_key rule_type : Option String) : List DbLog :=
  db.filter (fun lg =>
    lg.source == source
    && (!pyTruthy email || lg.email == email)
    && (!pyTruthy task_key || lg.task_key == task_key)
    && (!pyTruthy rule_type || lg.rule_type == rule_type))

/-- `_already_logged_today_by_level` from `reminder_bot.py`: a log for the
same `(task_key, rule_type)` (any email) whose `created_at` falls on
today's Vietnam calendar date with a level equal (case-insensitively) to
the requested one. -/
def already_logged_today_by_level (db : List DbLog) (taskKey ruleCode level : String)
    (now : Int) : Bool :=
  let today := vnDateOrd now
  (list_by_email_and_task db "reminder_bot" none (some taskKey) (some ruleCode)).any
    (fun lg =>
      match lg.created_at, lg.level with
      | some ca, some lv =>
        if lv.isEmpty then false
        else vnDateOrd ca == today && pyUpper lv == pyUpper level
      | _, _ => false)

/-! ## Message composition -/

/-- Rendering of a possibly-`None` value inside an f-string. -/
def fstr (o : Option String) : String := o.getD "None"

/-- Rule-specific payloads (the dicts returned by the evaluators; each rule
builds exactly one shape, so the variants are tied to their rule). -/
inductive Payload where
  | pre (h : PreHit)
  | post (h : PostHit)
  | assignee (h : AssigneeHit)
  | due (h : DueHit)
  | created (h : CreatedHit)
deriving DecidableEq, Repr

/-- `build_message` from `reminder_bot.py` (single-finding message).  A
`code`/payload pairing that never occurs in the pipeline falls through to
the default template. -/
def build_message (task : JiraTask) (code : String) (data : Option Payload) : String :=
  let url := fstr task.task_url
  let key := task.key
  let summary := task.summary.getD ""
  if code = MISSING_LOGTIME then
    "⏰ Anh/chị ơi, mình quên logtime cho task [" ++ key ++ "] - " ++ summary
      ++ " rồi nè. Nhớ cập nhật sớm nha 👉 " ++ url
  else if code = MISSING_DESCRIPTION then
    "📝 Task [" ++ key ++ "] - " ++ summary ++ " chưa có mô tả chi tiết đó ạ. Anh/chị "
      ++ orEmpty task.reporter_email ++ " bổ sung giúp em để dev đỡ phải đoán nha 😅 👉 " ++ url
  else
    match code, data with
    | _, some (.pre h) =>
      if code = PRE_VERSION_REMINDER then
        "📦 Task [" ++ key ++ "] - " ++ summary ++ " thuộc version **" ++ h.fv_name
          ++ "** sắp release trong " ++ toString h.days
          ++ " ngày nữa đó ạ. Nếu chưa lên UAT thì mình check gấp giúp em nha 🙏 👉 " ++ url
      else "ℹ️ Task [" ++ key ++ "] - " ++ summary ++ ": " ++ url
    | _, some (.post h) =>
      if code = POST_VERSION_ALERT then
        "🚨 Task [" ++ key ++ "] - " ++ summary ++ " thuộc version **" ++ h.fv_name
          ++ "** đã quá hạn release (" ++ h.release_date
          ++ ") mà chưa chuyển trạng thái Complete. Mình kiểm tra giúp em với nha 🕐 👉 " ++ url
      else "ℹ️ Task [" ++ key ++ "] - " ++ summary ++ ": " ++ url
    | _, some (.assignee _) =>
      if code = ASSIGNEE_CHANGED then
        "👋 Task [" ++ key ++ "] - " ++ summary
          ++ " vừa được giao cho mình bắt đầu làm thôi nè)  💪 👉 " ++ url
      else "ℹ️ Task [" ++ key ++ "] - " ++ summary ++ ": " ++ url
    | _, some (.due h) =>
      if code = DUE_DATE_OVERDUE then
        "⏳ Task [" ++ key ++ "] - " ++ summary ++ " đã quá hạn due date (" ++ h.due_date
          ++ ") " ++ toString h.days_overdue ++ " ngày rồi ạ. Mình xử lý giúp em nhé 👉 " ++ url
      else "ℹ️ Task [" ++ key ++ "] - " ++ summary ++ ": " ++ url
    | _, some (.created h) =>
      if code = RECENTLY_CREATED then
        "🆕 Task [" ++ key ++ "] - " ++ summary ++ " vừa được tạo gần đây (created: "
          ++ h.created_at ++ "). Mời anh/chị vào xem và bắt đầu xử lý nha 👉 " ++ url
      else "ℹ️ Task [" ++ key ++ "] - " ++ summary ++ ": " ++ url
    | _, none => "ℹ️ Task [" ++ key ++ "] - " ++ summary ++ ": " ++ url

/-- One evaluated rule hit carried to dispatch:
the `(code, data, recipient_email)` tuples of `process_task`. -/
structure Finding where
  code : String
  payload : Option Payload
  recipient : Option String
deriving DecidableEq, Repr

/-- The per-finding bullet of `build_combined_message`; a finding whose
rule needs a payload but has none contributes nothing. -/
def bulletFor (task : JiraTask) (f : Finding) : Option String :=
  if f.code = MISSING_LOGTIME then
    some "⏰ Anh/chị ơi, mình ở CI Testing hơi lâu mà chưa logtime đó nha 😅."
  else if f.code = MISSING_DESCRIPTION then
    some ("📝 Task chưa có description. Anh/chị "
      ++ (if pyTruthy task.reporter_email then task.reporter_email.getD "" else "Reporter")
      ++ " bổ sung giúp, để chúng ta làm việc nhanh hơn nha 🙏.")
  else
    match f.code, f.payload with
    | _, some (.pre h) =>
      if f.code = PRE_VERSION_REMINDER then
        some ("📦 Task thuộc version **" ++ h.fv_name ++ "** sắp release trong "
          ++ toString h.days ++ " ngày nữa. .Chưa được chuyển trạng thái qua UAT or Ready UAT 🕵️‍♂️.")
      else none
    | _, some (.post h) =>
      if f.code = POST_VERSION_ALERT then
        some ("🚨 Task thuộc version **" ++ h.fv_name ++ "** đã quá hạn release ("
          ++ h.release_date ++ ") mà vẫn chưa chuyển trạng thái Complete.")
      else none
    | _, some (.assignee _) =>
      if f.code = ASSIGNEE_CHANGED then
        some "👋 Bé bot báo nè! Task này vừa được gán cho anh/chị đó 💪."
      else none
    | _, some (.due h) =>
      if f.code = DUE_DATE_OVERDUE then
        some ("⏳ Task đã quá hạn due date (" ++ h.due_date ++ ") "
          ++ toString h.days_overdue ++ " ngày.")
      else none
    | _, some (.created h) =>
      if f.code = RECENTLY_CREATED then
        some ("🆕 Task vừa được tạo (created: " ++ h.created_at ++ "). Mời vào xem cho nóng nha!")
      else none
    | _, none => none

/-- `"\n".join`. -/
def joinNl : List String → String
  | [] => ""
  | [x] => x
  | x :: xs => x ++ "\n" ++ joinNl xs

/-- `build_combined_message` from `reminder_bot.py`. -/
def build_combined_message (task : JiraTask) (findings : List Finding) : String :=
  let url := fstr task.task_url
  let key := task.key
  let summary := task.summary.getD ""
  let messages := findings.filterMap (bulletFor task)
  if !messages.isEmpty then
    "🎯 Task [" ++ key ++ "] - " ++ summary ++ ":\n"
      ++ joinNl (messages.map (fun m => "• " ++ m))
      ++ "\n\n🔗 Link kiểm tra nhanh: " ++ url ++ "\n"
      ++ ". Mình xử lý giúp em với nha 🏃‍♀️.— Bé bot nhà FRT thân ái nhắc nhẹ ❤️"
  else "ℹ️ Task [" ++ key ++ "] - " ++ summary ++ ": " ++ url

/-! ## The reminder cycle (`run_once` / `process_task`) -/

/-- The cycle's fixed context: the history bulk-loaded once at cycle start
(read-only for the whole cycle), the DB log table behind the same-day
check, the employee chat-id mapping, the chat collaborator
(`send_message_fpt`, modelled as recipient × group-id × text → ok), the
changelog fetch used for the assignee rule, the config thresholds, and the
current instant. -/
structure Env where
  history : List HistRow := []
  db : List DbLog := []
  employees : List (String × String) := []
  send : String → Option String → String → Bool := fun _ _ _ => true
  jiraLastChange : String → Option String := fun _ => none
  resend_after_hours : Int := 3
  ci_wait : Int := 5
  pre_days : Int := 2
  assignee_change_wait : Int := 60
  created_wait : Int := 60
  now : Int := 0

/-- One persisted dispatch-attempt record (`task_records` entry); `to` is
named `toAddr`, `sent_at` is the cycle instant, `response` is opaque
diagnostics and not modelled. -/
structure HistoryRecord where
  task_key : String
  rule_type : String
  toAddr : String
  sent_at : Int
  status : String
deriving DecidableEq, Repr

/-- One outbound chat message (the `send_message_fpt` call). -/
structure Dispatch where
  toAddr : String
  group_id : Option String
  text : String
deriving DecidableEq, Repr

/-- The rule-evaluation prefix of `process_task` (lines building
`findings`): each evaluator in source order, each hit appended with its
recipient; an evaluator that raises aborts the whole task (caught by the
outer `try`, yielding no findings and no records). -/
def computeFindings (env : Env) (task : JiraTask) : Except Unit (List Finding) := do
  let r1 ← evaluate_missing_logtime task env.ci_wait env.now
  let f1 : List Finding :=
    match r1 with
    | some _ => [⟨MISSING_LOGTIME, none, task.assignee_email⟩]
    | none => []
  let f2 : List Finding :=
    match evaluate_missing_description task with
    | some _ => [⟨MISSING_DESCRIPTION, none, task.reporter_email⟩]
    | none => []
  let f3 : List Finding :=
    match evaluate_pre_version_reminder task env.pre_days env.now with
    | some h => [⟨PRE_VERSION_REMINDER, some (.pre h), task.assignee_email⟩]
    | none => []
  let f4 : List Finding :=
    match evaluate_post_version_alert task env.now with
    | some h => [⟨POST_VERSION_ALERT, some (.post h), task.assignee_email⟩]
    | none => []
  let f6 : List Finding :=
    match evaluate_due_date_overdue task env.now with
    | some h => [⟨DUE_DATE_OVERDUE, some (.due h), task.assignee_email⟩]
    | none => []
  let fa ←
    if pyTruthy task.assignee_email then do
      let task' :=
        match task.last_assignee_changed_at with
        | none => { task with last_assignee_changed_at := env.jiraLastChange task.key }
        | some _ => task
      let r5 ← evaluate_assignee_changed task' env.assignee_change_wait env.now
      pure (match r5 with
        | some h => [(⟨ASSIGNEE_CHANGED, some (.assignee h), task'.assignee_email⟩ : Finding)]
        | none => ([] : List Finding))
    else pure ([] : List Finding)
  let r7 ← evaluate_created_recently task env.created_wait env.now
  let f7 : List Finding :=
    match r7 with
    | some h =>
      [⟨RECENTLY_CREATED, some (.created h),
        if pyTruthy task.assignee_email then task.assignee_email else task.reporter_email⟩]
    | none => []
  pure (f1 ++ f2 ++ f3 ++ f4 ++ f6 ++ fa ++ f7)

/-- Insertion into the insertion-ordered `recipient_findings` dict: append
to an existing recipient's list, else append a new group at the end. -/
def addToGroups (groups : List (String × List Finding)) (rcpt : String) (f : Finding) :
    List (String × List Finding) :=
  if groups.any (fun g => g.1 == rcpt) then
    groups.map (fun g => if g.1 == rcpt then (g.1, g.2 ++ [f]) else g)
  else groups ++ [(rcpt, [f])]

/-- The recipient-normalisation / grouping loop of `process_task`: fall
back from the finding's recipient to the task's reporter, drop findings
with no resolvable recipient, group the rest by recipient preserving
insertion order (the stored tuple carries the resolved recipient). -/
def groupFindings (task : JiraTask) : List Finding → List (String × List Finding) →
    List (String × List Finding)
  | [], acc => acc
  | f :: rest, acc =>
    let r := if pyTruthy f.recipient then f.recipient else task.reporter_email
    if !pyTruthy r then groupFindings task rest acc
    else groupFindings task rest (addToGroups acc (r.getD "") { f with recipient := r })

/-- `_lookup_chat_id`: first employee row whose email matches
case-insensitively, else the empty string. -/
def lookup_chat_id (employees : List (String × String)) (email : String) : String :=
  match employees.find? (fun p => pyLower p.1 == pyLower email) with
  | some p => p.2
  | none => ""

/-- The per-finding dedup test of the skip loop in `process_task`:
`_already_sent` within `resend_after_hours`, then
`_already_logged_today_by_level` at level INFO (first true skips the whole
group). -/
def findingBlocked (env : Env) (task : JiraTask) (recipient : String) (f : Finding) : Bool :=
  already_sent env.history task.key f.code recipient env.resend_after_hours env.now
  || already_logged_today_by_level env.db task.key f.code "INFO" env.now

/-- The per-recipient dispatch body of `process_task` (continued): gate,
filter, build, send, record. -/
def processGroup (env : Env) (task : JiraTask) (recipient : String) (fl : List Finding) :
    List Dispatch × List HistoryRecord :=
  if !is_test_email (some recipient) then ([], [])
  else if fl.any (findingBlocked env task recipient) then ([], [])
  else
    let text :=
      match fl with
      | [f] => build_message task f.code f.payload
      | _ => build_combined_message task fl
    let chat_id0 := lookup_chat_id env.employees recipient
    let chat_id := if chat_id0.isEmpty then recipient else chat_id0
    let group_id := if !chat_id.isEmpty && chat_id ≠ recipient then some chat_id else none
    let ok := env.send recipient group_id text
    ([⟨recipient, group_id, text⟩],
     fl.map (fun f => ⟨task.key, f.code, recipient, env.now, if ok then "sent" else "failed"⟩))

/-- `process_task` from `reminder_bot.py`: evaluate all rules, group hits
by recipient, run the dedup filter and dispatch per group; an exception
during evaluation aborts the task with no dispatches and no records. -/
def process_task (env : Env) (task : JiraTask) : List Dispatch × List HistoryRecord :=
  match computeFindings env task with
  | .error _ => ([], [])
  | .ok fs =>
    (groupFindings task fs []).foldl
      (fun acc g =>
        (acc.1 ++ (processGroup env task g.1 g.2).1, acc.2 ++ (processGroup env task g.1 g.2).2))
      ([], [])

/-- One cycle over the fetched tasks (`run_once` after the history bulk
load): each task is processed against the same read-only environment —
there is no in-memory accumulator of this cycle's sends — and the records
are collected for one batch insert at the end.  Parallel and sequential
modes produce the same multiset of outputs; the sequential order is
modelled. -/
def run_cycle (env : Env) (tasks : List JiraTask) : List Dispatch × List HistoryRecord :=
  tasks.foldl
    (fun acc t =>
      (acc.1 ++ (process_task env t).1, acc.2 ++ (process_task env t).2))
    ([], [])

/-! ## Concrete cycle fixtures -/

deriving instance DecidableEq for Except

/-- 2025-11-10 08:00:00 Vietnam time as an absolute instant. -/
def nowNov10 : Int := (toOrd ⟨2025, 11, 10⟩ : Int) * 86400000000 + 8 * 3600000000 - vnOffUs

/-- An environment with empty history, empty log table and an
always-succeeding chat collaborator. -/
def envPlain : Env := { now := nowNov10 }

/-- A task in UAT whose single fix-version is dated exactly two days after
`nowNov10`. -/
def preUatTask : JiraTask :=
  { key := "PPFP-1", project := some "PPFP", status := some "UAT",
    fixVersions := [some "release/20251112-v1"] }

/-- A task with no description whose reporter is on the test list. -/
def mdTask : JiraTask :=
  { key := "PPFP-9", project := some "PPFP", summary := some "demo",
    reporter_email := some "hangnt60@fpt.com", task_url := some "http://jira/PPFP-9" }

/-- A history row recording a dispatch FAILURE for `mdTask`'s finding one
hour before `nowNov10`. -/
def failedHistRow : HistRow :=
  { task_key := some "PPFP-9", rule_type := some "missing_description",
    toAddr := some "hangnt60@fpt.com", sent_at := some "2025-11-10T07:00:00+07:00",
    status := some "failed" }

/-- A matching history row whose `sent_at` does not parse. -/
def unparseableHistRow : HistRow :=
  { task_key := some "PPFP-9", rule_type := some "missing_description",
    toAddr := some "hangnt60@fpt.com", sent_at := some "not-a-timestamp",
    status := some "sent" }

/-- A task in READY CI TESTING with no worklog whose project key is the
excluded literal `"IPTPE,TADS"`. -/
def excludedProjectCiTask : JiraTask :=
  { key := "X-2", project := some "IPTPE,TADS", status := some "READY CI TESTING",
    has_worklog := false }

/-- A task of the real project IPTPE whose due date is nine days before
`nowNov10`. -/
def iptpeOverdueTask : JiraTask :=
  { key := "IPTPE-3", project := some "IPTPE", duedate := some "2025-11-01" }

/-- The single finding of `mdTask`. -/
def fdMD : Finding := { code := MISSING_DESCRIPTION, payload := none,
                        recipient := some "hangnt60@fpt.com" }

/-- A task of project `"IPTPE,TADS"` (the only project the due-date rule
admits) with the same overdue due date as `iptpeOverdueTask`. -/
def iptpeTadsOverdueTask : JiraTask :=
  { key := "X-1", project := some "IPTPE,TADS", duedate := some "2025-11-01" }

/-- A two-finding group (missing logtime + missing description) for the
test recipient. -/
def mlFdPair : List Finding :=
  [{ code := MISSING_LOGTIME, payload := none, recipient := some "hangnt60@fpt.com" }, fdMD]

/-! ## Claim theorems -/

/-- Claim C1: the spec says a fix-version dated exactly 2 days out with a
UAT-exempt status yields no hit (first condition wins and the second is not
tried).  The code instead falls through the UAT-exempt branch into the
second condition `0 < days_until ≤ pre_version_days` and, with the default
`pre_version_days = 2`, returns a hit with `days = 2` and no `status`
key — contradicting its own `SKIP (không cần remind)` log line and the
`cho các trường hợp khác` comment. -/
theorem C1_uat_exempt_fixversion_still_hits :
    evaluate_pre_version_reminder preUatTask 2 nowNov10 =
      some { fv_name := "release/20251112-v1", days := 2, status := none } := by
  decide

/-- Claim C2 (counterexample): a `status="failed"` history row for the
same `(task_key, rule_type, to)` recorded one hour ago DOES count as a
prior send for the hour-based dedup check, and makes the cycle skip the
recipient entirely — the history that the same cycle would have dispatched
without it. -/
theorem C2_failed_record_blocks :
    failedHistRow.status = some "failed"
    ∧ already_sent [failedHistRow] "PPFP-9" "missing_description" "hangnt60@fpt.com"
        3 nowNov10 = true
    ∧ process_task { envPlain with history := [failedHistRow] } mdTask = ([], [])
    ∧ process_task envPlain mdTask ≠ ([], []) := by
  decide

/-- Claim C3 (counterexample): a matching history row whose `sent_at`
cannot be parsed is NOT treated as "already sent": with such a row alone
the dedup query returns `false` (the code logs "allowing send" and skips
the row). -/
theorem C3_unparseable_sent_at_not_treated_as_sent :
    fromiso_dt (replaceZ "not-a-timestamp") = none
    ∧ already_sent [unparseableHistRow] "PPFP-9" "missing_description"
        "hangnt60@fpt.com" 3 nowNov10 = false := by
  decide

/-- Claim C4 (counterexample): there is no in-memory accumulator of the
current cycle's sends — with a task list containing the same task twice and
empty pre-loaded history, one cycle dispatches two messages and writes two
`sent` records for the same `(recipient, task, rule)` triple. -/
theorem C4_duplicate_task_double_dispatch :
    (run_cycle envPlain [mdTask, mdTask]).1.length = 2
    ∧ ((run_cycle envPlain [mdTask, mdTask]).2.filter
        (fun r => r.task_key == "PPFP-9" && r.rule_type == MISSING_DESCRIPTION
          && r.toAddr == "hangnt60@fpt.com" && r.status == "sent")).length = 2 := by
  decide

/-- Claim C6 (counterexample): a task in READY CI TESTING with no worklog
and no `last_status_changed_at` — which the claim says must hit — yields no
hit when its project key is the excluded literal `"IPTPE,TADS"`. -/
theorem C6_excluded_project_blocks_hit :
    pyContains (normUpper excludedProjectCiTask.status) "READY CI TESTING" = true
    ∧ excludedProjectCiTask.has_worklog = false
    ∧ excludedProjectCiTask.last_status_changed_at = none
    ∧ evaluate_missing_logtime excludedProjectCiTask 5 nowNov10 = .ok none := by
  decide

/-- Claim C7 (counterexample): a task of the real project IPTPE with a
parseable due date nine days in the past — which the claim says must hit —
yields no hit, because `due_date_overdue`'s allow-list contains only the
literal `"IPTPE,TADS"`. -/
theorem C7_real_project_overdue_no_hit :
    parse_due "2025-11-01" = some ⟨2025, 11, 1⟩
    ∧ vnDateOrd nowNov10 > (toOrd ⟨2025, 11, 1⟩ : Int)
    ∧ evaluate_due_date_overdue iptpeOverdueTask nowNov10 = none := by
  decide

/-! ## Helper lemmas -/

/-- No uppercase image of a lowercase letter is a comma. -/
theorem ofNat_sub32_ne_comma (n : Nat) (h1 : 97 ≤ n) (h2 : n ≤ 122) :
    Char.ofNat (n - 32) ≠ ',' := by
  interval_cases n <;> decide

/-- `upChar` maps only a comma to a comma. -/
theorem upChar_eq_comma {c : Char} (h : upChar c = ',') : c = ',' := by
  unfold upChar at h
  split at h
  · exact absurd h (ofNat_sub32_ne_comma c.toNat (by omega) (by omega))
  · exact h

/-- A comma in an uppercased string comes from a comma. -/
theorem comma_mem_of_pyUpper {s : String} (h : ',' ∈ (pyUpper s).data) : ',' ∈ s.data := by
  simp only [pyUpper] at h
  obtain ⟨c, hc, he⟩ := List.mem_map.mp h
  exact (upChar_eq_comma he) ▸ hc

/-- Stripping only removes characters. -/
theorem mem_of_stripL {c : Char} {l : List Char} (h : c ∈ stripL l) : c ∈ l := by
  unfold stripL at h
  rw [List.mem_reverse] at h
  have h2 := (List.dropWhile_sublist _).subset h
  rw [List.mem_reverse] at h2
  exact (List.dropWhile_sublist _).subset h2

/-- A project key without a comma cannot normalise to `"IPTPE,TADS"`. -/
theorem comma_free_ne_literal {p : Option String} (h : ',' ∉ (orEmpty p).data) :
    normUpper p ≠ "IPTPE,TADS" := by
  intro he
  apply h
  have hm : ',' ∈ (normUpper p).data := by rw [he]; decide
  simp only [normUpper] at hm
  exact mem_of_stripL (comma_mem_of_pyUpper hm)

/-- A project that does not normalise to the literal is never excluded (all
non-empty exclusion lists hold exactly `["IPTPE,TADS"]`). -/
theorem not_excluded_of_normUpper_ne (p : Option String) (r : String)
    (h : normUpper p ≠ "IPTPE,TADS") : is_project_excluded p r = false := by
  have hu : pyUpper "IPTPE,TADS" = "IPTPE,TADS" := by decide
  simp only [normUpper, orEmpty] at h
  unfold is_project_excluded RULE_EXCLUDED_PROJECTS
  cases ht : pyTruthy p with
  | false => simp
  | true =>
    simp only [ht, Bool.not_true, Bool.false_eq_true, if_false]
    split_ifs <;> simp_all [hu]

/-- The `missing_logtime` allow-list is empty, so every project passes. -/
theorem ml_allowed (p : Option String) : is_project_allowed p MISSING_LOGTIME = true := by
  have h : RULE_INCLUDED_PROJECTS MISSING_LOGTIME = [] := by decide
  unfold is_project_allowed
  simp [h]

/-- The `due_date_overdue` exclusion list is empty. -/
theorem due_not_excluded (p : Option String) :
    is_project_excluded p DUE_DATE_OVERDUE = false := by
  have h : RULE_EXCLUDED_PROJECTS DUE_DATE_OVERDUE = [] := by decide
  unfold is_project_excluded
  cases ht : pyTruthy p <;> simp [ht, h]

/-- A non-empty normalised project key is truthy. -/
theorem truthy_of_normUpper_ne_empty {p : Option String} (h : normUpper p ≠ "") :
    pyTruthy p = true := by
  cases p with
  | none => exact absurd (by decide) h
  | some s =>
    by_cases hs : s.isEmpty = true
    · rw [(String.isEmpty_iff s).mp hs] at h
      exact absurd (by decide) h
    · simp [pyTruthy, hs]

/-- `due_date_overdue`'s allow-list admits exactly the projects normalising
to the literal `"IPTPE,TADS"`. -/
theorem due_allowed_false_of_ne (p : Option String) (h : normUpper p ≠ "IPTPE,TADS") :
    is_project_allowed p DUE_DATE_OVERDUE = false := by
  have hu : pyUpper "IPTPE,TADS" = "IPTPE,TADS" := by decide
  have hinc : RULE_INCLUDED_PROJECTS DUE_DATE_OVERDUE = ["IPTPE,TADS"] := by decide
  simp only [normUpper, orEmpty] at h
  unfold is_project_allowed
  rw [hinc]
  cases ht : pyTruthy p <;> simp [ht, hu, h]

/-- Converse direction of the allow-list test. -/
theorem due_allowed_true_of_eq (p : Option String) (h : normUpper p = "IPTPE,TADS") :
    is_project_allowed p DUE_DATE_OVERDUE = true := by
  have ht : pyTruthy p = true := truthy_of_normUpper_ne_empty (by rw [h]; decide)
  have hu : pyUpper "IPTPE,TADS" = "IPTPE,TADS" := by decide
  have hinc : RULE_INCLUDED_PROJECTS DUE_DATE_OVERDUE = ["IPTPE,TADS"] := by decide
  simp only [normUpper, orEmpty] at h
  unfold is_project_allowed
  rw [hinc]
  simp [ht, hu, h]

/-- Claim C2 (amended): the hour-based dedup check ignores the `status`
field of history records entirely — rewriting every record's status (e.g.
`failed` → anything) never changes the outcome, so a recent `failed` record
blocks resend exactly as a `sent` record does. -/
theorem C2_hour_dedup_ignores_status (rows : List HistRow)
    (g : Option String → Option String) (k c t : String) (h n : Int) :
    already_sent (rows.map (fun r => { r with status := g r.status })) k c t h n
      = already_sent rows k c t h n := by
  simp only [already_sent, List.any_map]
  congr 1

/-- Claim C3 (amended): a matching record whose `sent_at` cannot be parsed
is skipped by the hour-based dedup check — if every record's `sent_at`
fails to parse, the check reports "not sent" and the send proceeds. -/
theorem C3_unparseable_rows_allow_send (rows : List HistRow) (k c t : String)
    (h n : Int)
    (hp : ∀ r ∈ rows, (r.sent_at.bind fun s => fromiso_dt (replaceZ s)) = none) :
    already_sent rows k c t h n = false := by
  induction rows with
  | nil => rfl
  | cons r rs ih =>
    have hr := hp r (List.mem_cons_self _ _)
    have hrs := fun x hx => hp x (List.mem_cons_of_mem _ hx)
    simp only [already_sent, List.any_cons] at *
    have hb : rowBlocks n k c t h r = false := by
      unfold rowBlocks
      split
      · cases hsa : r.sent_at with
        | none => rfl
        | some s =>
          have hps : fromiso_dt (replaceZ s) = none := by simpa [hsa] using hr
          simp [hsa, hps]
      · rfl
    simp [hb, ih hrs]

/-- Witness for the amended C3 at a concrete unparseable record. -/
theorem C3_unparseable_rows_allow_send_witness :
    (∀ r ∈ [unparseableHistRow], (r.sent_at.bind fun s => fromiso_dt (replaceZ s)) = none)
    ∧ already_sent [unparseableHistRow] "K-1" "missing_logtime" "someone@fpt.com" 3 0
        = false :=
  ⟨by decide, C3_unparseable_rows_allow_send _ _ _ _ 3 0 (by decide)⟩

/-- Claim C5: for a recipient that passes the test-email gate, the dedup
filter is all-or-nothing per `(task, recipient)` group: if any finding of
the group is blocked (sent within the window, or same-day INFO log), the
whole group produces no dispatch and no records; if none is blocked, the
group produces exactly one dispatched message and one record per finding. -/
theorem C5_group_dedup_all_or_nothing (env : Env) (task : JiraTask)
    (recipient : String) (fl : List Finding)
    (hgate : is_test_email (some recipient) = true) :
    ((∃ f ∈ fl, findingBlocked env task recipient f = true) →
        processGroup env task recipient fl = ([], []))
    ∧ ((∀ f ∈ fl, findingBlocked env task recipient f = false) →
        (processGroup env task recipient fl).1.length = 1
        ∧ (processGroup env task recipient fl).2.length = fl.length) := by
  constructor
  · rintro ⟨f, hf, hb⟩
    have hany : fl.any (findingBlocked env task recipient) = true :=
      List.any_eq_true.mpr ⟨f, hf, hb⟩
    unfold processGroup
    simp [hgate, hany]
  · intro hall
    have hany : fl.any (findingBlocked env task recipient) = false := by
      rw [List.any_eq_false]
      intro f hf
      simp [hall f hf]
    unfold processGroup
    simp [hgate, hany]

/-- Witness for C5: a blocked group is dropped whole; an unblocked group
dispatches once with one record per finding. -/
theorem C5_group_dedup_all_or_nothing_witness :
    processGroup { envPlain with history := [failedHistRow] } mdTask
        "hangnt60@fpt.com" [fdMD] = ([], [])
    ∧ (processGroup envPlain mdTask "hangnt60@fpt.com" [fdMD]).1.length = 1
    ∧ (processGroup envPlain mdTask "hangnt60@fpt.com" [fdMD]).2.length = [fdMD].length :=
  ⟨(C5_group_dedup_all_or_nothing _ _ _ _ (by decide)).1 ⟨fdMD, by decide, by decide⟩,
   (C5_group_dedup_all_or_nothing _ _ _ _ (by decide)).2 (by decide)⟩

/-- Claim C6 (amended): for tasks whose project key does not normalise to
the excluded literal `"IPTPE,TADS"`, with status containing
"READY CI TESTING" (case-insensitively) and no worklog, `MissingLogtime`
hits when `last_status_changed_at` is absent/empty, or unparseable by both
of its formats, or timezone-aware and at least `ci_testing_wait_minutes`
old; and with `has_worklog = true` it never hits regardless of status,
project or time. -/
theorem C6_missing_logtime_amended :
    (∀ (task : JiraTask) (w now : Int),
        normUpper task.project ≠ "IPTPE,TADS" →
        pyContains (normUpper task.status) "READY CI TESTING" = true →
        task.has_worklog = false →
        ((pyTruthy task.last_status_changed_at = false →
            evaluate_missing_logtime task w now = .ok (some MISSING_LOGTIME))
         ∧ (∀ s, task.last_status_changed_at = some s →
              strptime_dtz s = none → strptime_dt s = none →
              evaluate_missing_logtime task w now = .ok (some MISSING_LOGTIME))
         ∧ (∀ s t, task.last_status_changed_at = some s →
              strptime_dtz s = some t → now - absUs t 0 ≥ w * 60000000 →
              evaluate_missing_logtime task w now = .ok (some MISSING_LOGTIME))))
    ∧ (∀ (task : JiraTask) (w now : Int), task.has_worklog = true →
        evaluate_missing_logtime task w now = .ok none) := by
  constructor
  · intro task w now hproj hstat hwl
    have hexc := not_excluded_of_normUpper_ne task.project MISSING_LOGTIME hproj
    refine ⟨?_, ?_, ?_⟩
    · intro hts
      unfold evaluate_missing_logtime
      simp [ml_allowed, hexc, hstat, hwl, hts]
    · intro s hs hz hn
      unfold evaluate_missing_logtime
      cases hts : pyTruthy task.last_status_changed_at with
      | false => simp [ml_allowed, hexc, hstat, hwl, hts]
      | true => simp [ml_allowed, hexc, hstat, hwl, hts, hs, hz, hn]
    · intro s t hs hz hge
      unfold evaluate_missing_logtime
      cases hts : pyTruthy task.last_status_changed_at with
      | false =>
        exfalso
        rw [hs] at hts
        have hse : s.isEmpty = true := by simpa [pyTruthy] using hts
        rw [(String.isEmpty_iff s).mp hse] at hz
        have hnone : strptime_dtz "" = none := by decide
        rw [hnone] at hz
        exact Option.noConfusion hz
      | true => simp [ml_allowed, hexc, hstat, hwl, hts, hs, hz, hge]
  · intro task w now hwl
    unfold evaluate_missing_logtime
    cases hexc : is_project_excluded task.project MISSING_LOGTIME <;>
      cases hstat : pyContains (normUpper task.status) "READY CI TESTING" <;>
        simp [ml_allowed, hexc, hstat, hwl]

/-- Witness for the amended C6: with an admissible project the absent
timestamp yields a hit, and a worklog suppresses the rule. -/
theorem C6_missing_logtime_amended_witness :
    evaluate_missing_logtime { excludedProjectCiTask with project := some "PPFP" } 5 nowNov10
      = .ok (some MISSING_LOGTIME)
    ∧ evaluate_missing_logtime
        { excludedProjectCiTask with has_worklog := true } 5 nowNov10 = .ok none :=
  ⟨(C6_missing_logtime_amended.1 _ 5 nowNov10 (by decide) (by decide) (by decide)).1
      (by decide),
   C6_missing_logtime_amended.2 _ 5 nowNov10 (by decide)⟩

/-- Claim C7 (amended): for tasks whose project key normalises to
`"IPTPE,TADS"` (the only project the allow-list admits) and whose due value
parses as a date, `DueDateOverdue` hits iff today (Vietnam date) is
strictly after the due date, and `days_overdue` is exactly the day
difference. -/
theorem C7_due_date_overdue_amended (task : JiraTask) (now : Int) (s : String)
    (d : PyDate)
    (hp : normUpper task.project = "IPTPE,TADS")
    (hl : dueLookup task = some s) (hd : parse_due s = some d) :
    evaluate_due_date_overdue task now =
      (if vnDateOrd now > (toOrd d : Int) then
        some { due_date := isoDateStr d, days_overdue := vnDateOrd now - (toOrd d : Int) }
      else none) := by
  unfold evaluate_due_date_overdue
  simp [due_allowed_true_of_eq _ hp, due_not_excluded, hl, hd]

/-- Witness for the amended C7 at a concrete overdue task of the admitted
project. -/
theorem C7_due_date_overdue_amended_witness :
    evaluate_due_date_overdue iptpeTadsOverdueTask nowNov10 =
      (if vnDateOrd nowNov10 > (toOrd (⟨2025, 11, 1⟩ : PyDate) : Int) then
        some { due_date := isoDateStr ⟨2025, 11, 1⟩,
               days_overdue := vnDateOrd nowNov10 - (toOrd (⟨2025, 11, 1⟩ : PyDate) : Int) }
      else none) :=
  C7_due_date_overdue_amended iptpeTadsOverdueTask nowNov10 "2025-11-01" ⟨2025, 11, 1⟩
    (by decide) (by decide) (by decide)

/-- Claim C9: the project include/exclude tables hold `"IPTPE,TADS"` as one
literal string compared whole (after strip/uppercase): every task whose
project does not normalise to that literal gets no `due_date_overdue` hit
regardless of its due date; the real projects IPTPE and TADS individually
are not allowed; and no comma-free (single-key) project is ever excluded
by the `missing_logtime` / `pre_version_reminder` / `post_version_alert`
exclusion lists. -/
theorem C9_project_tables_hold_one_literal :
    (∀ (task : JiraTask) (now : Int),
        normUpper task.project ≠ "IPTPE,TADS" →
        evaluate_due_date_overdue task now = none)
    ∧ is_project_allowed (some "IPTPE") DUE_DATE_OVERDUE = false
    ∧ is_project_allowed (some "TADS") DUE_DATE_OVERDUE = false
    ∧ (∀ (p : Option String) (r : String),
        r = MISSING_LOGTIME ∨ r = PRE_VERSION_REMINDER ∨ r = POST_VERSION_ALERT →
        ',' ∉ (orEmpty p).data → is_project_excluded p r = false) := by
  refine ⟨?_, by decide, by decide, ?_⟩
  · intro task now h
    unfold evaluate_due_date_overdue
    simp [due_allowed_false_of_ne _ h]
  · intro p r _ hc
    exact not_excluded_of_normUpper_ne p r (comma_free_ne_literal hc)

/-- Witness for C9: a real-project overdue task yields no hit, and the
single-key projects IPTPE / TADS are not excluded anywhere. -/
theorem C9_project_tables_hold_one_literal_witness :
    evaluate_due_date_overdue iptpeOverdueTask nowNov10 = none
    ∧ is_project_excluded (some "IPTPE") MISSING_LOGTIME = false
    ∧ is_project_excluded (some "TADS") PRE_VERSION_REMINDER = false :=
  ⟨C9_project_tables_hold_one_literal.1 iptpeOverdueTask nowNov10 (by decide),
   C9_project_tables_hold_one_literal.2.2.2 (some "IPTPE") MISSING_LOGTIME
     (Or.inl rfl) (by decide),
   C9_project_tables_hold_one_literal.2.2.2 (some "TADS") PRE_VERSION_REMINDER
     (Or.inr (Or.inl rfl)) (by decide)⟩

/-- The fold in `process_task` appends each group's dispatches and records
in order. -/
theorem processGroups_foldl (env : Env) (task : JiraTask) :
    ∀ (gs : List (String × List Finding)) (a : List Dispatch) (b : List HistoryRecord),
      gs.foldl (fun acc g =>
          (acc.1 ++ (processGroup env task g.1 g.2).1,
           acc.2 ++ (processGroup env task g.1 g.2).2)) (a, b)
        = (a ++ gs.flatMap (fun g => (processGroup env task g.1 g.2).1),
           b ++ gs.flatMap (fun g => (processGroup env task g.1 g.2).2)) := by
  intro gs
  induction gs with
  | nil => intro a b; simp
  | cons g gsl ih =>
    intro a b
    simp only [List.foldl_cons, List.flatMap_cons]
    rw [ih]
    simp [List.append_assoc]

/-- A group yields either nothing or exactly one dispatch addressed to the
group's recipient, with the test-email gate passed. -/
theorem processGroup_dispatches_cases (env : Env) (task : JiraTask) (rcpt : String)
    (fl : List Finding) :
    (processGroup env task rcpt fl).1 = []
    ∨ ∃ d : Dispatch, (processGroup env task rcpt fl).1 = [d] ∧ d.toAddr = rcpt
        ∧ is_test_email (some rcpt) = true := by
  unfold processGroup
  split_ifs with h1 h2
  · exact Or.inl rfl
  · exact Or.inl rfl
  · refine Or.inr ⟨_, rfl, rfl, ?_⟩
    simpa using h1

/-- Every record a group yields is addressed to the group's recipient, with
the test-email gate passed. -/
theorem processGroup_records_toAddr (env : Env) (task : JiraTask) (rcpt : String)
    (fl : List Finding) :
    ∀ r ∈ (processGroup env task rcpt fl).2,
      r.toAddr = rcpt ∧ is_test_email (some rcpt) = true := by
  unfold processGroup
  split_ifs with h1 h2
  · intro r hr; exact absurd hr (List.not_mem_nil r)
  · intro r hr; exact absurd hr (List.not_mem_nil r)
  · intro r hr
    obtain ⟨f, _, he⟩ := List.mem_map.mp hr
    exact ⟨by rw [← he], by simpa using h1⟩

/-- The recipients of a group list's dispatches form a sublist of the group
keys. -/
theorem dispatch_toAddrs_sublist (env : Env) (task : JiraTask) :
    ∀ gs : List (String × List Finding),
      List.Sublist
        ((gs.flatMap (fun g => (processGroup env task g.1 g.2).1)).map Dispatch.toAddr)
        (gs.map Prod.fst) := by
  intro gs
  induction gs with
  | nil => simp
  | cons g gsl ih =>
    simp only [List.flatMap_cons, List.map_append, List.map_cons]
    rcases processGroup_dispatches_cases env task g.1 g.2 with h | ⟨d, hd, hto, _⟩
    · rw [h]
      simpa using ih.cons g.1
    · rw [hd]
      simpa [hto] using ih.cons₂ g.1

/-- `addToGroups` keeps the key list unchanged or appends the new key. -/
theorem addToGroups_keys (gs : List (String × List Finding)) (rcpt : String) (f : Finding) :
    (addToGroups gs rcpt f).map Prod.fst
      = if gs.any (fun g => g.1 == rcpt) then gs.map Prod.fst
        else gs.map Prod.fst ++ [rcpt] := by
  unfold addToGroups
  split_ifs with h
  · rw [List.map_map]
    apply List.map_congr_left
    intro g _
    simp only [Function.comp_apply]
    split <;> rfl
  · simp

/-- `addToGroups` preserves distinctness of the group keys. -/
theorem addToGroups_keys_nodup (gs : List (String × List Finding)) (rcpt : String)
    (f : Finding) (h : (gs.map Prod.fst).Nodup) :
    ((addToGroups gs rcpt f).map Prod.fst).Nodup := by
  rw [addToGroups_keys]
  split_ifs with hc
  · exact h
  · have hnot : rcpt ∉ gs.map Prod.fst := by
      intro hm
      obtain ⟨g, hg, he⟩ := List.mem_map.mp hm
      have hany : gs.any (fun g => g.1 == rcpt) = true :=
        List.any_eq_true.mpr ⟨g, hg, by simp [he]⟩
      simp [hany] at hc
    simp [List.nodup_append, h, hnot]

/-- The grouping loop produces pairwise-distinct recipients. -/
theorem groupFindings_keys_nodup (task : JiraTask) :
    ∀ (fs : List Finding) (acc : List (String × List Finding)),
      (acc.map Prod.fst).Nodup → ((groupFindings task fs acc).map Prod.fst).Nodup := by
  intro fs
  induction fs with
  | nil => intro acc h; simpa [groupFindings] using h
  | cons f rest ih =>
    intro acc h
    simp only [groupFindings]
    cases htr : pyTruthy (if pyTruthy f.recipient = true then f.recipient
        else task.reporter_email) with
    | false => simp only [htr, Bool.not_false, if_true]; exact ih acc h
    | true =>
      simp only [htr, Bool.not_true, Bool.false_eq_true, if_false]
      exact ih _ (addToGroups_keys_nodup _ _ _ h)

/-- Membership in a `joinNl` join is an infix occurrence. -/
theorem mem_joinNl_infix : ∀ (l : List String) (s : String), s ∈ l →
    List.IsInfix s.data (joinNl l).data := by
  intro l
  induction l with
  | nil => intro s h; exact absurd h (List.not_mem_nil s)
  | cons x xs ih =>
    intro s h
    rcases List.mem_cons.mp h with he | hm
    · subst he
      cases xs with
      | nil => exact List.infix_rfl
      | cons y ys =>
        show List.IsInfix s.data (s ++ "\n" ++ joinNl (y :: ys)).data
        rw [String.data_append, String.data_append]
        exact ((List.prefix_append _ _).trans (List.prefix_append _ _)).isInfix
    · cases xs with
      | nil => exact absurd hm (List.not_mem_nil s)
      | cons y ys =>
        have hi := ih s hm
        show List.IsInfix s.data (x ++ "\n" ++ joinNl (y :: ys)).data
        rw [String.data_append]
        exact hi.trans (List.suffix_append _ _).isInfix

/-- Claim C4 (amended): there is no in-memory accumulator of the current
cycle's sends — dedup between tasks relies solely on the history loaded at
cycle start (see the counterexample) — but within the processing of one
task, findings are grouped per recipient, so one task never dispatches two
messages to the same recipient: the recipients of a task's dispatches are
pairwise distinct. -/
theorem C4_task_dispatch_recipients_nodup (env : Env) (task : JiraTask) :
    ((process_task env task).1.map Dispatch.toAddr).Nodup := by
  unfold process_task
  cases h : computeFindings env task with
  | error e => simp
  | ok fs =>
    dsimp only
    rw [processGroups_foldl env task _ [] []]
    simp only [List.nil_append]
    exact ((groupFindings_keys_nodup task fs [] (by simp)).sublist
      (dispatch_toAddrs_sublist env task _))

/-- Claim C10: `is_test_email` gates every send: every dispatch and every
history record a task produces is addressed to a recipient passing
`is_test_email`; a recipient passes only if some entry of the hardcoded
`TEST_EMAILS` equals it case-insensitively after trimming (the list is
non-empty, so no unlisted email passes); and an empty/absent recipient
never passes, even with an empty allow-list. -/
theorem C10_test_email_gates_every_send :
    (∀ (env : Env) (task : JiraTask),
        (∀ d ∈ (process_task env task).1, is_test_email (some d.toAddr) = true)
        ∧ (∀ r ∈ (process_task env task).2, is_test_email (some r.toAddr) = true))
    ∧ (∀ e : String, is_test_email (some e) = true →
        ∃ t ∈ TEST_EMAILS, pyLower t = pyLower (pyStrip e))
    ∧ (∀ emails : List String,
        is_test_email_with emails none = false
        ∧ is_test_email_with emails (some "") = false) := by
  refine ⟨?_, ?_, ?_⟩
  · intro env task
    unfold process_task
    cases h : computeFindings env task with
    | error e => exact ⟨fun d hd => absurd hd (List.not_mem_nil d),
        fun r hr => absurd hr (List.not_mem_nil r)⟩
    | ok fs =>
      dsimp only
      rw [processGroups_foldl env task _ [] []]
      simp only [List.nil_append]
      constructor
      · intro d hd
        obtain ⟨g, _, hdg⟩ := List.mem_flatMap.mp hd
        rcases processGroup_dispatches_cases env task g.1 g.2 with hnil | ⟨d', hd', hto, hg⟩
        · rw [hnil] at hdg; exact absurd hdg (List.not_mem_nil d)
        · rw [hd'] at hdg
          rw [List.mem_singleton.mp hdg, hto]
          exact hg
      · intro r hr
        obtain ⟨g, _, hrg⟩ := List.mem_flatMap.mp hr
        obtain ⟨hto, hg⟩ := processGroup_records_toAddr env task g.1 g.2 r hrg
        rw [hto]
        exact hg
  · intro e h
    unfold is_test_email is_test_email_with at h
    split_ifs at h with h1 h2
    · exact absurd h2 (by decide)
    · obtain ⟨t, ht, hp⟩ := List.any_eq_true.mp h
      exact ⟨t, ht, of_decide_eq_true hp⟩
  · intro emails
    constructor <;> rfl

/-- Witness for C10: the one dispatch of a concrete task is to a test
address, and that address is certified by a list entry. -/
theorem C10_test_email_gates_every_send_witness :
    is_test_email
        (some (((process_task envPlain mdTask).1.headD
          { toAddr := "", group_id := none, text := "" }).toAddr)) = true
    ∧ (∃ t ∈ TEST_EMAILS, pyLower t = pyLower (pyStrip "hangnt60@fpt.com")) :=
  ⟨(C10_test_email_gates_every_send.1 envPlain mdTask).1 _ (by decide),
   C10_test_email_gates_every_send.2.1 "hangnt60@fpt.com" (by decide)⟩

/-- Infix occurrences extend under a left append. -/
theorem isInfix_append_left {α} (s : List α) {x t : List α}
    (h : List.IsInfix x t) : List.IsInfix x (s ++ t) :=
  h.trans (List.suffix_append s t).isInfix

/-- Infix occurrences extend under a right append. -/
theorem isInfix_append_right {α} (s : List α) {x t : List α}
    (h : List.IsInfix x t) : List.IsInfix x (t ++ s) :=
  h.trans (List.prefix_append t s).isInfix

/-- A dispatch outcome tag is `sent` or `failed`. -/
theorem status_of_bool (b : Bool) :
    (if b = true then "sent" else "failed") = "sent"
    ∨ (if b = true then "sent" else "failed") = "failed" := by
  cases b
  · exact Or.inr rfl
  · exact Or.inl rfl

/-- Records shaped like a group's record list share one outcome tag. -/
theorem records_outcome_aux (key rcpt : String) (now : Int) (ok : Bool)
    (fl : List Finding) :
    ∃ st, (st = "sent" ∨ st = "failed")
      ∧ ∀ r ∈ fl.map (fun f =>
          ({ task_key := key, rule_type := f.code, toAddr := rcpt, sent_at := now,
             status := if ok = true then "sent" else "failed" } : HistoryRecord)),
          r.toAddr = rcpt ∧ r.status = st := by
  refine ⟨if ok = true then "sent" else "failed", status_of_bool ok, ?_⟩
  intro r hr
  obtain ⟨f, _, he⟩ := List.mem_map.mp hr
  exact he ▸ ⟨rfl, rfl⟩

/-- Any group's records all go to the group's recipient with one shared
outcome tag, `sent` or `failed`. -/
theorem processGroup_records_outcome (env : Env) (task : JiraTask) (rcpt : String)
    (fl : List Finding) :
    ∃ st, (st = "sent" ∨ st = "failed")
      ∧ ∀ r ∈ (processGroup env task rcpt fl).2, r.toAddr = rcpt ∧ r.status = st := by
  unfold processGroup
  split_ifs
  · exact ⟨"sent", Or.inl rfl, fun r hr => absurd hr (List.not_mem_nil r)⟩
  · exact ⟨"sent", Or.inl rfl, fun r hr => absurd hr (List.not_mem_nil r)⟩
  · dsimp only
    exact records_outcome_aux task.key rcpt env.now _ fl

/-- Claim C8: a group of two or more findings for one recipient that passes
the gate and the dedup filter produces exactly one dispatched (combined)
message whose text contains each finding's bullet text, and exactly one
history record per finding, all addressed to that recipient and all tagged
with the same dispatch outcome. -/
theorem C8_combined_dispatch_and_records (env : Env) (task : JiraTask)
    (recipient : String) (fl : List Finding)
    (hgate : is_test_email (some recipient) = true)
    (hall : ∀ f ∈ fl, findingBlocked env task recipient f = false)
    (hlen : 2 ≤ fl.length) :
    (∃ d : Dispatch,
      (processGroup env task recipient fl).1 = [d]
      ∧ ∀ f ∈ fl, ∀ b, bulletFor task f = some b → List.IsInfix b.data d.text.data)
    ∧ (processGroup env task recipient fl).2.map HistoryRecord.rule_type
        = fl.map Finding.code
    ∧ ∃ st, (st = "sent" ∨ st = "failed")
        ∧ ∀ r ∈ (processGroup env task recipient fl).2,
            r.toAddr = recipient ∧ r.status = st := by
  have hany : fl.any (findingBlocked env task recipient) = false := by
    rw [List.any_eq_false]
    intro f hf
    simp [hall f hf]
  refine ⟨?_, ?_, processGroup_records_outcome env task recipient fl⟩
  · match fl, hlen with
    | f1 :: f2 :: rest, _ =>
      unfold processGroup
      rw [if_neg (by simp [hgate]), if_neg (by simp_all)]
      refine ⟨_, rfl, ?_⟩
      intro f hf b hb
      show List.IsInfix b.data (build_combined_message task (f1 :: f2 :: rest)).data
      unfold build_combined_message
      have hmem : b ∈ (f1 :: f2 :: rest).filterMap (bulletFor task) :=
        List.mem_filterMap.mpr ⟨f, hf, hb⟩
      have hne : ((f1 :: f2 :: rest).filterMap (bulletFor task)).isEmpty = false := by
        cases hm : (f1 :: f2 :: rest).filterMap (bulletFor task) with
        | nil => rw [hm] at hmem; exact absurd hmem (List.not_mem_nil b)
        | cons m ms => rfl
      rw [if_pos (by simp [hne])]
      have hbul : List.IsInfix ("• " ++ b).data
          (joinNl (((f1 :: f2 :: rest).filterMap (bulletFor task)).map
            (fun m => "• " ++ m))).data :=
        mem_joinNl_infix _ _ (List.mem_map_of_mem _ hmem)
      have hb2 : List.IsInfix b.data ("• " ++ b).data := by
        rw [String.data_append]
        exact (List.suffix_append _ _).isInfix
      have hmid := hb2.trans hbul
      simp only [String.data_append, List.append_assoc]
      exact isInfix_append_left _ (isInfix_append_left _ (isInfix_append_left _
        (isInfix_append_left _ (isInfix_append_left _ (isInfix_append_right _ hmid)))))
  · match fl, hlen with
    | f1 :: f2 :: rest, _ =>
      unfold processGroup
      rw [if_neg (by simp [hgate]), if_neg (by simp_all)]
      simp [List.map_map]

/-- Witness for C8: a missing-logtime plus missing-description pair for one
recipient yields one combined dispatch and two same-outcome records. -/
theorem C8_combined_dispatch_and_records_witness :
    (∃ d : Dispatch,
      (processGroup envPlain mdTask "hangnt60@fpt.com" mlFdPair).1 = [d]
      ∧ ∀ f ∈ mlFdPair, ∀ b, bulletFor mdTask f = some b →
          List.IsInfix b.data d.text.data)
    ∧ (processGroup envPlain mdTask "hangnt60@fpt.com" mlFdPair).2.map
          HistoryRecord.rule_type = mlFdPair.map Finding.code
    ∧ ∃ st, (st = "sent" ∨ st = "failed")
        ∧ ∀ r ∈ (processGroup envPlain mdTask "hangnt60@fpt.com" mlFdPair).2,
            r.toAddr = "hangnt60@fpt.com" ∧ r.status = st :=
  C8_combined_dispatch_and_records envPlain mdTask "hangnt60@fpt.com" mlFdPair
    (by decide) (by decide) (by decide)
